import Mathlib

/-! gobinarymeshfitting: the driver loop and the debug scene

A shallow embedding of `main.go`, `core.go` and `debugscene.go`.

* Every call that leaves the program (SDL, OpenGL, `fmt`, the clock) is an
  `Effect`; a function of the program returns its result together with the
  list of effects it performed, in order.
* What the outside world answers is read from an `Env`: whether the SDL and GL
  initialisation calls fail, the compile and link status of each shader, and
  the value of each successive `sdl.GetTicks()` read.
* `uint32` values are naturals reduced modulo `2^32`, Go `int` values are
  integers wrapped to 64 bits.
* The loop of `CoreRun` does not terminate in general, so it is run on fuel:
  the result is `none` while the loop is still running.
* A Go panic ends the function it occurs in and its callers, after their
  deferred calls: `gl.Init` failing in `CoreInit`, and `gl.Str` of go-gl on a
  string without a NUL byte at its end in `NewDebugScene`.
* The types `FPSCamera`, `WorldOctree` and the watcher and generator behind
  `ds.world.watcher` are used by `debugscene.go` but declared nowhere in the
  sources; they are modelled from the specification and marked as such.
-/

namespace GoBinaryMeshFitting

/-! ## Data modelled from the specification -/

/-- Modelled from the spec: `ChunkCoordinate` (section 3), integers
`(x, y, z, lod)`; no source file declares it. -/
structure ChunkCoordinate where
  x : Int
  y : Int
  z : Int
  lod : Nat
  deriving DecidableEq, Repr

/-- Modelled from the spec: `PendingRequest` (section 3), a coordinate with a
priority and the generation epoch it was issued at; a larger `priority` is
served first. No source file declares it. -/
structure PendingRequest where
  coordinate : ChunkCoordinate
  priority : Nat
  epoch : Nat
  deriving DecidableEq, Repr

/-- Modelled from the spec: an entry of the completion queue (section 4.3),
the coordinate and the epoch the worker received; the mesh payload is left
out. No source file declares it. -/
structure Completion where
  coordinate : ChunkCoordinate
  epoch : Nat
  deriving DecidableEq, Repr

/-- Modelled from the spec: the Generator (section 4.3) behind
`ds.world.watcher.generator`, whose type is missing from the sources: the
bounded pending queue, the requests a worker has started, the completion
queue, and whether `stop()` has closed it. -/
structure Generator where
  maxDepth : Nat
  pending : List PendingRequest
  inflight : List PendingRequest
  completions : List Completion
  stopped : Bool
  deriving DecidableEq, Repr

/-- Modelled from the spec: the Watcher (section 4.2) behind
`ds.world.watcher`, whose type is missing from the sources; it owns the
generator (`watcher.generator`) and refuses new requests once stopped. -/
structure Watcher where
  generator : Generator
  stopped : Bool
  deriving DecidableEq, Repr

/-- Modelled from the spec: `WorldOctree`, the type of `DebugScene.world`,
missing from the sources: the spatial index (section 4.1) as the list of
resident coordinates, the current epoch of each coordinate, the coordinates
holding a GPU representation, and the watcher. -/
structure WorldOctree where
  watcher : Watcher
  resident : List ChunkCoordinate
  epochs : List (ChunkCoordinate × Nat)
  uploaded : List ChunkCoordinate
  deriving DecidableEq, Repr

/-- Modelled from the spec: `FPSCamera`, the type of `DebugScene.camera`,
missing from the sources; the camera collaborator supplies the viewpoint
position (section 6). -/
structure FPSCamera where
  position : Int × Int × Int
  deriving DecidableEq, Repr

/-- The zero value Go gives a `Generator`. -/
def Generator.zero : Generator :=
  { maxDepth := 0, pending := [], inflight := [], completions := [], stopped := false }

/-- The zero value Go gives a `WorldOctree`. -/
def WorldOctree.zero : WorldOctree :=
  { watcher := { generator := Generator.zero, stopped := false },
    resident := [], epochs := [], uploaded := [] }

/-- The zero value Go gives an `FPSCamera`. -/
def FPSCamera.zero : FPSCamera := { position := (0, 0, 0) }

/-! ## Effects and the environment -/

/-- The functions of package `gl` the program calls. -/
inductive GLCall where
  | init | getString | goStr | enable | depthFunc
  | createShader | strs | shaderSource | free | compileShader
  | getShaderiv | getShaderInfoLog | str
  | createProgram | attachShader | bindAttribLocation | linkProgram
  | getProgramiv | getProgramInfoLog | getUniformLocation
  deriving DecidableEq, Repr

/-- The functions of the program whose entry is recorded in the trace. -/
inductive Fn where
  | CoreInit | CoreRun | CoreCleanup | NewDebugScene
  | shaderErrorCheck | linkerErrorCheck
  | initWorld | update | render | destroy
  deriving DecidableEq, Repr

/-- One observable step of a run. `createBuffer` and `destroyBuffer` are the
device-buffer calls of section 6 of the specification; no function of the
sources performs them. -/
inductive Effect where
  | call (f : Fn)
  | lockOSThread
  | sdlInit
  | sdlQuit
  | glSetAttribute
  | createWindow
  | windowDestroy
  | glCreateContext
  | glDeleteContext
  | getTicks
  | gl (c : GLCall)
  | print
  | cameraInit
  | cameraSetShader
  | watcherStop
  | generatorStop
  | createBuffer (c : ChunkCoordinate)
  | destroyBuffer (c : ChunkCoordinate)
  deriving DecidableEq, Repr

/-- What the outside world answers during one run. -/
structure Env where
  /-- Whether `sdl.Init` returns an error. -/
  sdlInitFails : Bool
  /-- Whether `sdl.CreateWindow` returns an error. -/
  createWindowFails : Bool
  /-- Whether `sdl.GL_CreateContext` returns an error. -/
  createContextFails : Bool
  /-- Whether `gl.Init` returns an error. -/
  glInitFails : Bool
  /-- Whether the `k`-th `COMPILE_STATUS` query answers `gl.FALSE`. -/
  compileFailed : Nat → Bool
  /-- Whether the `k`-th `LINK_STATUS` query answers `gl.FALSE`. -/
  linkFailed : Nat → Bool
  /-- The value of the `k`-th call of `sdl.GetTicks()`. -/
  ticks : Nat → Nat
  /-- The missing method `FPSCamera.init`, as a function of the camera. -/
  cameraInit : FPSCamera → FPSCamera

/-- The `uint32` the `k`-th call of `sdl.GetTicks()` returns. -/
def readTicks (env : Env) (k : Nat) : Nat := env.ticks k % 2 ^ 32

/-- Go `int` arithmetic: wrap an integer to 64 bits, two's complement. -/
def wrapInt (x : Int) : Int := (x + 2 ^ 63) % 2 ^ 64 - 2 ^ 63

/-- Subtraction of `uint32` values. -/
def subU32 (a b : Nat) : Nat := (a + 2 ^ 32 - b % 2 ^ 32) % 2 ^ 32

/-! ## core.go: constants and `RenderInput` -/

def defaultWinWidth : Int := 800
def defaultWinHeight : Int := 600
def maxFrameSkip : Int := 1
def updatesPerSecond : Int := 60

/-- The constant `skipTicks = 1 / updatesPerSecond`: both operands are untyped
integer constants, so Go divides as integers, truncating. -/
def skipTicks : Int := Int.tdiv 1 updatesPerSecond

/-- The struct `RenderInput`. `window` and `context` record whether a non-nil
handle is stored; `delta` holds the `uint32` difference that the source
converts with `float32(...)`. -/
structure RenderInput where
  window : Bool
  context : Bool
  winWidth : Int
  winHeight : Int
  delta : Nat
  shouldClose : Bool
  deriving DecidableEq, Repr

/-- The value `new(RenderInput)` allocates. -/
def RenderInput.zero : RenderInput :=
  { window := false, context := false, winWidth := 0, winHeight := 0, delta := 0,
    shouldClose := false }

/-! ## debugscene.go -/

def defaultFillMode : Int := 1
def quads : Bool := false
def smoothNormals : Bool := false
def flatQuads : Bool := false

/-- The struct `DebugScene`, without its `float32` fields (line width,
colours, specular power), its GL object handles and uniform locations, the
chunk pointers and the two mutexes, which no function below reads. -/
structure DebugScene where
  lastSpace : Int
  outlineVisible : Bool
  fillmode : Int
  cull : Bool
  quads : Bool
  smoothShading : Bool
  flatQuads : Bool
  guiVisible : Bool
  updateFocus : Bool
  camera : FPSCamera
  world : WorldOctree
  lastExtraction : Int
  updateRequired : Bool
  deriving DecidableEq, Repr

/-- The value `new(DebugScene)` allocates. -/
def DebugScene.zero : DebugScene :=
  { lastSpace := 0, outlineVisible := false, fillmode := 0, cull := false, quads := false,
    smoothShading := false, flatQuads := false, guiVisible := false, updateFocus := false,
    camera := FPSCamera.zero, world := WorldOctree.zero, lastExtraction := 0,
    updateRequired := false }

/-- The effects of a piece of code and whether it ended in a Go panic. -/
structure Steps where
  trace : List Effect
  panicked : Bool

/-- One call that returns. -/
def step (e : Effect) : Steps := { trace := [e], panicked := false }

/-- Running pieces of code one after the other: a panic ends the sequence,
what follows it is not run. -/
def Steps.seq : List Steps → Steps
  | [] => { trace := [], panicked := false }
  | x :: xs =>
    if x.panicked then x
    else { trace := x.trace ++ (Steps.seq xs).trace, panicked := (Steps.seq xs).panicked }

/-- The function `gl.Str` of go-gl, which panics on a string that does not
end in a NUL byte; `terminated` says whether the argument ends in one. -/
def glStr (terminated : Bool) : Steps := { trace := [.gl .str], panicked := !terminated }

/-- The function `shaderErrorCheck`: one status query, and on `gl.FALSE` the
message, the log length query, the log read and the second message. The log
buffer `strings.Repeat("\x00", int(logLength+1))` ends in a NUL byte, the
log length GL reports being non-negative. -/
def shaderErrorCheck (env : Env) (k : Nat) : Steps :=
  Steps.seq
    ([step (.call .shaderErrorCheck), step (.gl .getShaderiv)] ++
      (if env.compileFailed k then
        [step .print, step (.gl .getShaderiv), glStr true, step (.gl .getShaderInfoLog),
          step .print]
      else []))

/-- The function `linkerErrorCheck`. -/
def linkerErrorCheck (env : Env) (k : Nat) : Steps :=
  Steps.seq
    ([step (.call .linkerErrorCheck), step (.gl .getProgramiv)] ++
      (if env.linkFailed k then
        [step .print, step (.gl .getProgramiv), glStr true, step (.gl .getProgramInfoLog),
          step .print]
      else []))

/-- Creating, sourcing and compiling one shader, then checking it; the
shader sources end in `"\x00"`. -/
def compileShader (env : Env) (k : Nat) : Steps :=
  Steps.seq
    [step (.gl .createShader), step (.gl .strs), step (.gl .shaderSource), step (.gl .free),
      step (.gl .compileShader), shaderErrorCheck env k]

/-- One `gl.GetUniformLocation(program, gl.Str(name))`: the argument is
evaluated first, and the name, a literal such as `"projection"`, does not
end in a NUL byte. -/
def uniformLocation : Steps := Steps.seq [glStr false, step (.gl .getUniformLocation)]

/-- One `gl.BindAttribLocation(program, index, gl.Str(name))`, the name a
literal such as `"vertex_position"` without a NUL byte at its end. -/
def bindAttrib : Steps := Steps.seq [glStr false, step (.gl .bindAttribLocation)]

/-- The method `initWorld`: an empty body. -/
def initWorld (ds : DebugScene) : DebugScene × List Effect := (ds, [.call .initWorld])

/-- The GL calls of `NewDebugScene`, from the first `gl.CreateShader` to the
last `gl.GetUniformLocation`: the regular shader program, then the outline
shader program. -/
def sceneShaders (env : Env) : Steps :=
  Steps.seq
    [compileShader env 0, compileShader env 1,
      step (.gl .createProgram), step (.gl .attachShader), step (.gl .attachShader),
      bindAttrib, bindAttrib,
      step (.gl .linkProgram), linkerErrorCheck env 0,
      uniformLocation, uniformLocation, uniformLocation,
      uniformLocation, uniformLocation, uniformLocation,
      compileShader env 2, compileShader env 3,
      step (.gl .createProgram), step (.gl .attachShader), step (.gl .attachShader),
      bindAttrib,
      step (.gl .linkProgram), linkerErrorCheck env 1,
      uniformLocation, uniformLocation, uniformLocation]

/-- The result of `NewDebugScene`: the object `ds` as the function leaves it,
the effects performed, and whether the function ended in a panic, in which
case its caller receives nothing. -/
structure SceneResult where
  scene : DebugScene
  trace : List Effect
  panicked : Bool

/-- The function `NewDebugScene`: the field assignments, the two shader
programs, the camera set-up and `initWorld`. -/
def NewDebugScene (env : Env) (_renderInput : RenderInput) : SceneResult :=
  let ds : DebugScene :=
    { DebugScene.zero with
      lastSpace := 0, outlineVisible := false, smoothShading := smoothNormals,
      fillmode := defaultFillMode, quads := quads, flatQuads := flatQuads, cull := true,
      guiVisible := true, updateFocus := true }
  let shaders := sceneShaders env
  if shaders.panicked then
    { scene := ds, trace := [.call .NewDebugScene] ++ shaders.trace, panicked := true }
  else
    let ds1 : DebugScene := { ds with camera := env.cameraInit ds.camera }
    let (ds2, tw) := initWorld ds1
    { scene := ds2,
      trace := [.call .NewDebugScene] ++ shaders.trace ++
        [.cameraInit, .cameraSetShader, .print] ++ tw,
      panicked := false }

/-- The method `update`: `return 0`. -/
def update (ds : DebugScene) (_input : RenderInput) : DebugScene × Int × List Effect :=
  (ds, 0, [.call .update])

/-- The method `render`: `return 0`. -/
def render (ds : DebugScene) (_input : RenderInput) : DebugScene × Int × List Effect :=
  (ds, 0, [.call .render])

/-- Modelled from the spec: the missing method `stop()` of the watcher, which
from then on refuses new requests (section 6). -/
def Watcher.stop (w : Watcher) : Watcher × List Effect :=
  ({ w with stopped := true }, [.watcherStop])

/-- Modelled from the spec: the missing method `stop()` of the generator,
which closes the queue to new work and returns once the workers have been
joined (section 4.3). -/
def Generator.stop (g : Generator) : Generator × List Effect :=
  ({ g with stopped := true }, [.generatorStop])

/-- The method `destroy`: `ds.world.watcher.stop()`, then
`ds.world.watcher.generator.stop()`. -/
def destroy (ds : DebugScene) : DebugScene × List Effect :=
  let (w1, t1) := ds.world.watcher.stop
  let ds1 : DebugScene := { ds with world := { ds.world with watcher := w1 } }
  let (g1, t2) := ds1.world.watcher.generator.stop
  let ds2 : DebugScene :=
    { ds1 with world := { ds1.world with watcher := { ds1.world.watcher with generator := g1 } } }
  (ds2, [.call .destroy] ++ t1 ++ t2)

/-! ## core.go: `CoreInit`, `CoreRun`, `CoreCleanup` -/

/-- How a call ends: with a returned `bool`, or in a Go panic. -/
inductive Outcome where
  | ret (b : Bool)
  | panicked
  deriving DecidableEq, Repr

/-- The result of `CoreInit`: how it ended, the `RenderInput` behind the
pointer `out`, and the effects performed. -/
structure InitResult where
  outcome : Outcome
  out : RenderInput
  trace : List Effect

/-- The function `CoreInit`. The three `defer` statements run, last
registered first, when `CoreInit` itself returns or panics. -/
def CoreInit (env : Env) (out : RenderInput) : InitResult :=
  let t0 : List Effect := [.call .CoreInit, .lockOSThread, .sdlInit]
  if env.sdlInitFails then
    { outcome := .ret false, out := out, trace := t0 }
  else
    let t1 : List Effect :=
      t0 ++ [.glSetAttribute, .glSetAttribute, .glSetAttribute, .createWindow]
    let out1 : RenderInput :=
      { out with
        window := !env.createWindowFails, winHeight := defaultWinHeight,
        winWidth := defaultWinWidth, shouldClose := false }
    if env.createWindowFails then
      { outcome := .ret false, out := out1, trace := t1 ++ [.print, .sdlQuit] }
    else
      let t2 : List Effect := t1 ++ [.glCreateContext]
      let out2 : RenderInput := { out1 with context := !env.createContextFails }
      if env.createContextFails then
        { outcome := .ret false, out := out2,
          trace := t2 ++ [.print, .windowDestroy, .sdlQuit] }
      else
        let deferred : List Effect := [.glDeleteContext, .windowDestroy, .sdlQuit]
        if env.glInitFails then
          { outcome := .panicked, out := out2, trace := t2 ++ [.gl .init] ++ deferred }
        else
          { outcome := .ret true, out := out2,
            trace := t2 ++ [.gl .init, .gl .getString, .gl .goStr, .gl .getString, .gl .goStr,
              .print, .print, .gl .enable, .gl .depthFunc] ++ deferred }

/-- The local variables of `CoreRun` together with the `RenderInput` behind
`render`, and `clock`, the number of `sdl.GetTicks()` reads made so far. -/
structure RunState where
  render : RenderInput
  scene : DebugScene
  lastTime : Nat
  timer : Nat
  currentTime : Nat
  nextTick : Nat
  frameCounter : Int
  lastFps : Int
  updateCounter : Int
  tupdateCounter : Int
  clock : Nat

/-- The inner loop of `CoreRun`,
`for sdl.GetTicks() > nextTick && updateCounter < maxFrameSkip`: the clock
is read at every test, the counter is compared only when the first operand
holds. `none` when the fuel runs out. -/
def updateLoop (env : Env) : Nat → RunState → Option (RunState × List Effect)
  | 0, _ => none
  | fuel + 1, s =>
    let t := readTicks env s.clock
    let s1 : RunState := { s with clock := s.clock + 1 }
    if t > s1.nextTick ∧ s1.updateCounter < maxFrameSkip then
      let (scene, _, tu) := update s1.scene s1.render
      let s2 : RunState :=
        { s1 with
          scene := scene
          updateCounter := wrapInt (s1.updateCounter + 1)
          nextTick := (s1.nextTick + skipTicks.toNat) % 2 ^ 32
          tupdateCounter := wrapInt (s1.tupdateCounter + 1) }
      match updateLoop env fuel s2 with
      | none => none
      | some (s3, tr) => some (s3, [Effect.getTicks] ++ tu ++ tr)
    else some (s1, [Effect.getTicks])

/-- One iteration of the main loop of `CoreRun`, from the read of
`currentTime` to the frames-per-second report. -/
def loopBody (env : Env) (s : RunState) : Option (RunState × List Effect) :=
  let t := readTicks env s.clock
  let s1 : RunState :=
    { s with
      clock := s.clock + 1
      currentTime := t
      render := { s.render with delta := subU32 t s.lastTime }
      lastTime := t
      updateCounter := 0 }
  match updateLoop env (maxFrameSkip.toNat + 1) s1 with
  | none => none
  | some (s2, tu) =>
    let (scene, _, tr) := render s2.scene s2.render
    let s3 : RunState := { s2 with scene := scene, frameCounter := wrapInt (s2.frameCounter + 1) }
    let t3 := readTicks env s3.clock
    let s4 : RunState := { s3 with clock := s3.clock + 1 }
    if subU32 t3 s4.timer > 1 then
      some
        ({ s4 with
            timer := (s4.timer + 1) % 2 ^ 32
            lastFps := s4.frameCounter
            frameCounter := 0
            tupdateCounter := 0 },
          [Effect.getTicks] ++ tu ++ tr ++ [Effect.getTicks, Effect.print])
    else some (s4, [Effect.getTicks] ++ tu ++ tr ++ [Effect.getTicks])

/-- The result of running `CoreRun` on fuel: `result` is `none` while the loop
is still running, `state` is the state at the last loop test reached. -/
structure RunResult where
  result : Option Bool
  state : RunState
  trace : List Effect

/-- The main loop of `CoreRun`, `for !render.shouldClose`, followed by
`return false`. -/
def runLoop (env : Env) : Nat → RunState → RunResult
  | 0, s => { result := none, state := s, trace := [] }
  | fuel + 1, s =>
    if s.render.shouldClose then { result := some false, state := s, trace := [] }
    else
      match loopBody env s with
      | none => { result := none, state := s, trace := [] }
      | some (s1, tr) =>
        let r := runLoop env fuel s1
        { result := r.result, state := r.state, trace := tr ++ r.trace }

/-- The state of `CoreRun` when the main loop is first tested, once
`NewDebugScene` has returned `scene` and the clock has been read. -/
def CoreRunEntry (env : Env) (render : RenderInput) (scene : DebugScene) : RunState :=
  let lastTime := readTicks env 0
  { render := render, scene := scene, lastTime := lastTime, timer := lastTime,
    currentTime := 0, nextTick := lastTime, frameCounter := 0, lastFps := 0,
    updateCounter := 0, tupdateCounter := 0, clock := 1 }

/-- The function `CoreRun` from the point where `NewDebugScene` has returned
`scene`: the clock read, the counters and the main loop, run for at most
`fuel` loop tests. -/
def CoreRunFrom (env : Env) (fuel : Nat) (render : RenderInput) (scene : DebugScene) :
    RunResult :=
  let r := runLoop env fuel (CoreRunEntry env render scene)
  { result := r.result, state := r.state, trace := [Effect.getTicks] ++ r.trace }

/-- How a call of `CoreRun` stands after at most `fuel` loop tests: `none`
while it is still running, otherwise how it ended. -/
structure CallResult where
  outcome : Option Outcome
  trace : List Effect

/-- The function `CoreRun`, run for at most `fuel` loop tests. A panic in
`NewDebugScene` ends `CoreRun`, which defers nothing. -/
def CoreRun (env : Env) (fuel : Nat) (render : RenderInput) : CallResult :=
  let n := NewDebugScene env render
  if n.panicked then
    { outcome := some .panicked, trace := [Effect.call Fn.CoreRun] ++ n.trace }
  else
    let r := CoreRunFrom env fuel render n.scene
    { outcome := r.result.map Outcome.ret,
      trace := [Effect.call Fn.CoreRun] ++ n.trace ++ r.trace }

/-- The function `CoreCleanup`. -/
def CoreCleanup : List Effect := [.call .CoreCleanup, .sdlQuit]

/-! ## main.go -/

/-- How far a run of `main` has come. -/
inductive MainStatus where
  | returned
  | running
  | panicked
  deriving DecidableEq, Repr

/-- The status and the effects of a run of `main`. -/
structure MainResult where
  status : MainStatus
  trace : List Effect

/-- The function `main`, with `CoreRun` run for at most `fuel` loop tests. A
panic in `CoreInit` or `CoreRun` ends `main`, which defers nothing. -/
def main (env : Env) (fuel : Nat) : MainResult :=
  let renderInput := RenderInput.zero
  let i := CoreInit env renderInput
  match i.outcome with
  | .panicked => { status := .panicked, trace := i.trace }
  | .ret true => { status := .returned, trace := i.trace }
  | .ret false =>
    let r := CoreRun env fuel i.out
    match r.outcome with
    | none => { status := .running, trace := i.trace ++ r.trace }
    | some .panicked => { status := .panicked, trace := i.trace ++ r.trace }
    | some (.ret _) => { status := .returned, trace := i.trace ++ r.trace ++ CoreCleanup }

/-! ## The generator queue, modelled from the specification -/

/-- Modelled from the spec: a lowest-priority request of the pending queue
(section 4.3, backpressure); the generator code is missing from the sources. -/
def lowestPriority : List PendingRequest → Option PendingRequest
  | [] => none
  | r :: rs =>
    match lowestPriority rs with
    | none => some r
    | some m => if r.priority ≤ m.priority then some r else some m

/-- Modelled from the spec: the generator's enqueue (section 4.3), missing
from the sources. It returns at once with the new generator and the request
it dropped, if any: a stopped generator takes no new work; below the maximum
depth the request is appended; on a full queue a lowest-priority pending
request is dropped to make room. The in-flight requests are not touched. -/
def Generator.enqueue (g : Generator) (r : PendingRequest) :
    Generator × Option PendingRequest :=
  if g.stopped then (g, some r)
  else if g.pending.length < g.maxDepth then ({ g with pending := g.pending ++ [r] }, none)
  else
    match lowestPriority g.pending with
    | some d => ({ g with pending := g.pending.erase d ++ [r] }, some d)
    | none => (g, some r)

/-- Modelled from the spec: squared distance from the viewpoint to the
coordinate of a chunk, the distance the scenario of section 8 computes
(`(96,0,0)` is at distance 4 from `(100,0,0)`). -/
def distSq (p : Int × Int × Int) (c : ChunkCoordinate) : Int :=
  (p.1 - c.x) ^ 2 + (p.2.1 - c.y) ^ 2 + (p.2.2 - c.z) ^ 2

/-- Modelled from the spec: the LOD radii of the scenario of section 8,
`[64, 128, 256]` for levels `[0, 1, 2]`. -/
def scenarioRadii : List Int := [64, 128, 256]

/-- Modelled from the spec: the camera collaborator moves the viewpoint. -/
def moveViewpoint (ds : DebugScene) (p : Int × Int × Int) : DebugScene :=
  { ds with camera := { ds.camera with position := p } }

/-- An environment in which every initialisation call succeeds and the clock
advances by one tick per read. -/
def envOk : Env :=
  { sdlInitFails := false, createWindowFails := false, createContextFails := false,
    glInitFails := false, compileFailed := fun _ => false, linkFailed := fun _ => false,
    ticks := fun k => k, cameraInit := fun c => c }

/-- An environment in which `sdl.Init` fails. -/
def envInitFails : Env := { envOk with sdlInitFails := true }

/-- Modelled from the spec: "ideal at L" (section 4.2), a coordinate lies
within `radius[L]` of the viewpoint; the comparison is made on squares. -/
def idealAt (radii : List Int) (p : Int × Int × Int) (c : ChunkCoordinate) : Bool :=
  match radii.get? c.lod with
  | some r => decide (distSq p c ≤ r ^ 2)
  | none => false

/-- The events `CoreRun` can perform. -/
def Effect.isRunEffect : Effect → Bool
  | .call .CoreRun | .call .NewDebugScene | .call .shaderErrorCheck
  | .call .linkerErrorCheck | .call .initWorld | .call .update | .call .render => true
  | .gl c => decide (c ≠ .init)
  | .getTicks | .print | .cameraInit | .cameraSetShader => true
  | _ => false

/-- The events `CoreInit` can perform. -/
def Effect.isInitEffect : Effect → Bool
  | .call .CoreInit | .lockOSThread | .sdlInit | .sdlQuit | .glSetAttribute
  | .createWindow | .windowDestroy | .glCreateContext | .glDeleteContext | .print => true
  | .gl _ => true
  | _ => false

/-- The effects of the inner loop within one iteration of the main loop. -/
def updateTrace (env : Env) (s : RunState) : List Effect :=
  if readTicks env (s.clock + 1) > s.nextTick then
    [Effect.getTicks, Effect.call Fn.update, Effect.getTicks]
  else [Effect.getTicks]

/-- A scene whose completion queue holds a completion for coordinate
`(0,0,0,0)` tagged with epoch 1, while the coordinate has been evicted (it is
not resident) and its epoch bumped to 2. -/
def sceneStale : DebugScene :=
  { DebugScene.zero with
    world :=
      { WorldOctree.zero with
        epochs := [(⟨0, 0, 0, 0⟩, 2)]
        watcher :=
          { generator := { Generator.zero with completions := [⟨⟨0, 0, 0, 0⟩, 1⟩] }
            stopped := false } } }

/-- A scene of the scenario of section 8 before the viewpoint moves: the
viewpoint is at the origin, the leaves `(0,0,0,0)` and `(-96,0,0,0)` are
resident. -/
def sceneOrigin : DebugScene :=
  { DebugScene.zero with
    world := { WorldOctree.zero with resident := [⟨0, 0, 0, 0⟩, ⟨-96, 0, 0, 0⟩] } }

/-- A generator whose pending queue of depth 2 is full, with one request in
flight. -/
def generatorFull : Generator :=
  { maxDepth := 2
    pending := [⟨⟨1, 0, 0, 0⟩, 5, 0⟩, ⟨⟨2, 0, 0, 0⟩, 1, 0⟩]
    inflight := [⟨⟨3, 0, 0, 0⟩, 0, 0⟩]
    completions := []
    stopped := false }

/-! ## The loop of `CoreRun` -/

theorem skipTicks_eq : skipTicks = 0 := by decide

theorem wrapInt_one : wrapInt 1 = 1 := by decide

/-- The inner loop ends within two tests when entered with a zero counter:
it performs one update when the first clock read exceeds `nextTick`, none
otherwise. -/
theorem updateLoop_zero (env : Env) (s : RunState) (h : s.updateCounter = 0) :
    updateLoop env 2 s =
      if readTicks env s.clock > s.nextTick then
        some ({ s with
                clock := s.clock + 2
                updateCounter := 1
                nextTick := s.nextTick % 2 ^ 32
                tupdateCounter := wrapInt (s.tupdateCounter + 1) },
              [Effect.getTicks, Effect.call Fn.update, Effect.getTicks])
      else some ({ s with clock := s.clock + 1 }, [Effect.getTicks]) := by
  by_cases hgt : readTicks env s.clock > s.nextTick
  · simp [updateLoop, update, h, hgt, maxFrameSkip, skipTicks_eq, wrapInt_one, Nat.add_assoc]
  · simp [updateLoop, hgt]

theorem maxFrameSkip_fuel : maxFrameSkip.toNat + 1 = 2 := by decide

/-- One iteration of the main loop always completes; its effects are the
read of `currentTime`, the inner loop, the render call, the clock read of
the report and possibly the report itself. It changes neither `shouldClose`
nor the scene, and reduces `nextTick` modulo `2^32` at most. -/
theorem loopBody_spec (env : Env) (s : RunState) :
    ∃ s1 post, loopBody env s =
        some (s1, [Effect.getTicks] ++ updateTrace env s ++
          [Effect.call Fn.render, Effect.getTicks] ++ post) ∧
      (post = [] ∨ post = [Effect.print]) ∧
      s1.render.shouldClose = s.render.shouldClose ∧
      s1.nextTick =
        (if readTicks env (s.clock + 1) > s.nextTick then s.nextTick % 2 ^ 32
         else s.nextTick) ∧
      s1.scene = s.scene := by
  unfold loopBody
  simp only [maxFrameSkip_fuel]
  rw [updateLoop_zero env _ rfl]
  by_cases hgt : readTicks env (s.clock + 1) > s.nextTick
  · simp only [hgt, if_true, updateTrace, render]
    split_ifs
    · exact ⟨_, [Effect.print], rfl, Or.inr rfl, rfl, rfl, rfl⟩
    · exact ⟨_, [], rfl, Or.inl rfl, rfl, rfl, rfl⟩
  · simp only [hgt, if_false, updateTrace, render]
    split_ifs
    · exact ⟨_, [Effect.print], rfl, Or.inr rfl, rfl, rfl, rfl⟩
    · exact ⟨_, [], rfl, Or.inl rfl, rfl, rfl, rfl⟩

theorem loopBody_trace_run (env : Env) (s s1 : RunState) (tr : List Effect)
    (h : loopBody env s = some (s1, tr)) : ∀ e ∈ tr, e.isRunEffect = true := by
  obtain ⟨s2, post, h2, hpost, -, -, -⟩ := loopBody_spec env s
  rw [h2] at h
  have htr : tr = [Effect.getTicks] ++ updateTrace env s ++
      [Effect.call Fn.render, Effect.getTicks] ++ post := by
    have := Option.some.inj h
    exact (congrArg Prod.snd this).symm
  subst htr
  unfold updateTrace
  rcases hpost with rfl | rfl <;> split_ifs <;> decide

/-- While `shouldClose` is false the main loop is still running, whatever
the fuel. -/
theorem runLoop_running (env : Env) (fuel : Nat) (s : RunState)
    (h : s.render.shouldClose = false) : (runLoop env fuel s).result = none := by
  induction fuel generalizing s with
  | zero => rfl
  | succ n ih =>
    obtain ⟨s1, post, h1, -, hc, -, -⟩ := loopBody_spec env s
    simp only [runLoop, h, h1]
    exact ih s1 (hc.trans h)

/-- When `shouldClose` is true at a loop test, the loop ends there and
`CoreRun` returns false. -/
theorem runLoop_close (env : Env) (fuel : Nat) (s : RunState)
    (h : s.render.shouldClose = true) :
    runLoop env (fuel + 1) s = { result := some false, state := s, trace := [] } := by
  simp [runLoop, h]

theorem runLoop_result (env : Env) (fuel : Nat) (s : RunState) (b : Bool)
    (h : (runLoop env fuel s).result = some b) :
    b = false ∧ (runLoop env fuel s).state.render.shouldClose = true := by
  cases hs : s.render.shouldClose with
  | false => rw [runLoop_running env fuel s hs] at h; cases h
  | true =>
    cases fuel with
    | zero => cases h
    | succ n =>
      rw [runLoop_close env n s hs] at h ⊢
      exact ⟨(Option.some.inj h).symm, hs⟩

theorem runLoop_nextTick (env : Env) (fuel : Nat) (s : RunState)
    (h : s.nextTick < 2 ^ 32) : (runLoop env fuel s).state.nextTick = s.nextTick := by
  induction fuel generalizing s with
  | zero => rfl
  | succ n ih =>
    obtain ⟨s1, post, h1, -, -, hn, -⟩ := loopBody_spec env s
    have hn1 : s1.nextTick = s.nextTick := by
      rw [hn]; split_ifs
      · exact Nat.mod_eq_of_lt h
      · rfl
    cases hs : s.render.shouldClose with
    | true => simp [runLoop, hs]
    | false =>
      simp only [runLoop, hs, h1]
      rw [← hn1]
      exact ih s1 (hn1 ▸ h)

theorem runLoop_trace_run (env : Env) (fuel : Nat) (s : RunState) :
    ∀ e ∈ (runLoop env fuel s).trace, e.isRunEffect = true := by
  induction fuel generalizing s with
  | zero => intro e he; cases he
  | succ n ih =>
    obtain ⟨s1, post, h1, -, -, -, -⟩ := loopBody_spec env s
    cases hs : s.render.shouldClose with
    | true => simp [runLoop, hs]
    | false =>
      simp only [runLoop, hs, h1]
      intro e he
      rcases List.mem_append.mp he with h | h
      · exact loopBody_trace_run env s s1 _ h1 e h
      · exact ih s1 e h

/-! ## The traces of `NewDebugScene`, `CoreRun` and `CoreInit` -/

theorem Steps.seq_run (l : List Steps)
    (h : ∀ x ∈ l, x.trace.all Effect.isRunEffect = true) :
    (Steps.seq l).trace.all Effect.isRunEffect = true := by
  induction l with
  | nil => rfl
  | cons x xs ih =>
    have hx := h x (List.mem_cons_self _ _)
    have hxs := ih (fun y hy => h y (List.mem_cons_of_mem _ hy))
    simp only [Steps.seq]
    split_ifs
    · exact hx
    · simp only [List.all_append, hx, hxs, Bool.and_self]

theorem shaderErrorCheck_run (env : Env) (k : Nat) :
    (shaderErrorCheck env k).trace.all Effect.isRunEffect = true := by
  unfold shaderErrorCheck; split_ifs <;> rfl

theorem shaderErrorCheck_returns (env : Env) (k : Nat) :
    (shaderErrorCheck env k).panicked = false := by
  unfold shaderErrorCheck; split_ifs <;> rfl

theorem linkerErrorCheck_run (env : Env) (k : Nat) :
    (linkerErrorCheck env k).trace.all Effect.isRunEffect = true := by
  unfold linkerErrorCheck; split_ifs <;> rfl

theorem compileShader_run (env : Env) (k : Nat) :
    (compileShader env k).trace.all Effect.isRunEffect = true := by
  refine Steps.seq_run _ ?_
  simp only [List.forall_mem_cons, shaderErrorCheck_run]
  exact ⟨rfl, rfl, rfl, rfl, rfl, trivial, fun _ h => absurd h (List.not_mem_nil _)⟩

theorem compileShader_returns (env : Env) (k : Nat) :
    (compileShader env k).panicked = false := by
  simp [compileShader, Steps.seq, step, shaderErrorCheck_returns]

theorem sceneShaders_run (env : Env) :
    (sceneShaders env).trace.all Effect.isRunEffect = true := by
  refine Steps.seq_run _ ?_
  simp only [List.forall_mem_cons, compileShader_run, linkerErrorCheck_run, true_and]
  refine ⟨rfl, rfl, rfl, rfl, rfl, rfl, rfl, rfl, rfl, rfl, rfl, rfl, rfl, rfl, rfl, rfl,
    rfl, rfl, rfl, rfl, ?_⟩
  exact fun _ h => absurd h (List.not_mem_nil _)

/-- The shader set-up of `NewDebugScene` ends in a panic: the first
`gl.Str` of a literal, `"vertex_position"`, has no NUL byte at its end. -/
theorem sceneShaders_panicked (env : Env) : (sceneShaders env).panicked = true := by
  simp [sceneShaders, Steps.seq, step, compileShader_returns, bindAttrib, glStr]

theorem NewDebugScene_panicked (env : Env) (r : RenderInput) :
    (NewDebugScene env r).panicked = true := by
  simp [NewDebugScene, sceneShaders_panicked]

theorem NewDebugScene_run (env : Env) (r : RenderInput) :
    (NewDebugScene env r).trace.all Effect.isRunEffect = true := by
  simp only [NewDebugScene, sceneShaders_panicked, if_true, List.all_append, sceneShaders_run,
    Bool.and_true]
  rfl

/-- `NewDebugScene` leaves the world at its zero value: nothing is resident. -/
theorem NewDebugScene_world (env : Env) (r : RenderInput) :
    (NewDebugScene env r).scene.world = WorldOctree.zero := by
  simp only [NewDebugScene, sceneShaders_panicked, if_true]
  rfl

/-- `CoreRun` ends in the panic of `NewDebugScene`. -/
theorem CoreRun_outcome (env : Env) (fuel : Nat) (r : RenderInput) :
    (CoreRun env fuel r).outcome = some Outcome.panicked := by
  simp [CoreRun, NewDebugScene_panicked]

theorem CoreRun_trace_run (env : Env) (fuel : Nat) (r : RenderInput) :
    ∀ e ∈ (CoreRun env fuel r).trace, e.isRunEffect = true := by
  intro e he
  simp only [CoreRun, NewDebugScene_panicked, if_true, List.mem_append] at he
  rcases he with h | h
  · simp only [List.mem_singleton] at h; subst h; rfl
  · exact List.all_eq_true.mp (NewDebugScene_run env r) e h

theorem CoreRun_calls_CoreRun (env : Env) (fuel : Nat) (r : RenderInput) :
    Effect.call Fn.CoreRun ∈ (CoreRun env fuel r).trace := by
  simp [CoreRun, NewDebugScene_panicked]

theorem CoreInit_trace_init (env : Env) (r : RenderInput) :
    (CoreInit env r).trace.all Effect.isInitEffect = true := by
  unfold CoreInit
  split_ifs <;> rfl

/-- Whatever happens in `CoreInit`, `shouldClose` is false afterwards when it
was false before. -/
theorem CoreInit_shouldClose (env : Env) (r : RenderInput) (h : r.shouldClose = false) :
    (CoreInit env r).out.shouldClose = false := by
  unfold CoreInit
  split_ifs <;> simp [h]

theorem CoreRunFrom_running (env : Env) (fuel : Nat) (r : RenderInput) (scene : DebugScene)
    (h : r.shouldClose = false) : (CoreRunFrom env fuel r scene).result = none := by
  simp only [CoreRunFrom, CoreRunEntry]
  exact runLoop_running env fuel _ h

theorem main_of_true (env : Env) (fuel : Nat)
    (h : (CoreInit env RenderInput.zero).outcome = Outcome.ret true) :
    main env fuel =
      { status := MainStatus.returned, trace := (CoreInit env RenderInput.zero).trace } := by
  simp only [main, h]

theorem main_of_panicked (env : Env) (fuel : Nat)
    (h : (CoreInit env RenderInput.zero).outcome = Outcome.panicked) :
    main env fuel =
      { status := MainStatus.panicked, trace := (CoreInit env RenderInput.zero).trace } := by
  simp only [main, h]

theorem main_of_false (env : Env) (fuel : Nat)
    (h : (CoreInit env RenderInput.zero).outcome = Outcome.ret false) :
    main env fuel =
      { status := MainStatus.panicked,
        trace := (CoreInit env RenderInput.zero).trace ++
          (CoreRun env fuel (CoreInit env RenderInput.zero).out).trace } := by
  simp only [main, h, CoreRun_outcome]

/-- Every effect of a run of `main` is one `CoreInit` or `CoreRun` performs. -/
theorem main_trace_effects (env : Env) (fuel : Nat) :
    ∀ e ∈ (main env fuel).trace, e.isInitEffect = true ∨ e.isRunEffect = true := by
  intro e he
  have hin := List.all_eq_true.mp (CoreInit_trace_init env RenderInput.zero)
  cases h : (CoreInit env RenderInput.zero).outcome with
  | panicked => rw [main_of_panicked env fuel h] at he; exact Or.inl (hin e he)
  | ret b =>
    cases b with
    | true => rw [main_of_true env fuel h] at he; exact Or.inl (hin e he)
    | false =>
      rw [main_of_false env fuel h] at he
      rcases List.mem_append.mp he with h1 | h1
      · exact Or.inl (hin e h1)
      · exact Or.inr (CoreRun_trace_run env fuel _ e h1)

/-- No run of `main` calls into `CoreCleanup` or `DebugScene.destroy`. -/
theorem main_trace_avoids (env : Env) (fuel : Nat) (e : Effect)
    (hi : e.isInitEffect = false) (hr : e.isRunEffect = false) :
    e ∉ (main env fuel).trace := by
  intro he
  rcases main_trace_effects env fuel e he with h | h
  · rw [hi] at h; cases h
  · rw [hr] at h; cases h

/-! ## The watcher tick and the integrator pass -/

/-- C1, amended: for every viewpoint position `p`, one tick (`update`) leaves
the resident coordinate set exactly as it was before the tick and returns 0;
in the world `NewDebugScene` and `initWorld` build, nothing is resident. -/
theorem update_keeps_resident (ds : DebugScene) (p : Int × Int × Int) (input : RenderInput)
    (env : Env) :
    (update (moveViewpoint ds p) input).1.world.resident = ds.world.resident ∧
    (update (moveViewpoint ds p) input).1 = moveViewpoint ds p ∧
    (update (moveViewpoint ds p) input).2.1 = 0 ∧
    (NewDebugScene env input).1.world.resident = [] :=
  ⟨rfl, rfl, rfl, congrArg WorldOctree.resident (NewDebugScene_world env input)⟩

/-- C1, as stated, fails: in the scene `NewDebugScene` builds the viewpoint is
at `(0,0,0)` and the leaf `(0,0,0,0)` is ideal at level 0 for the radii
`[64,128,256]`, yet after one tick it is not resident. -/
theorem update_origin_leaf_not_resident :
    (NewDebugScene envOk RenderInput.zero).1.camera.position = (0, 0, 0) ∧
    idealAt scenarioRadii (0, 0, 0) ⟨0, 0, 0, 0⟩ = true ∧
    ¬ (⟨0, 0, 0, 0⟩ ∈
      (update (NewDebugScene envOk RenderInput.zero).1 RenderInput.zero).1.world.resident) := by
  refine ⟨rfl, by decide, ?_⟩
  intro h
  cases h

/-- C2, amended: for every scene, the integrator pass (`render`) performs no
GPU buffer allocation for any coordinate, returns 0, and leaves the scene,
its completion queue included, as it found it. -/
theorem render_no_upload (ds : DebugScene) (input : RenderInput) (c : ChunkCoordinate) :
    Effect.createBuffer c ∉ (render ds input).2.2 ∧
    (render ds input).2.2 = [Effect.call Fn.render] ∧
    (render ds input).2.1 = 0 ∧
    (render ds input).1 = ds := by
  refine ⟨?_, rfl, rfl, rfl⟩
  simp [render]

/-- C2, as stated, fails: the completion of `(0,0,0,0)` at epoch 1, stale
since the coordinate was evicted and its epoch bumped to 2, is still in the
completion queue after the integrator pass. -/
theorem render_keeps_stale_completion :
    (⟨0, 0, 0, 0⟩ : ChunkCoordinate) ∉ sceneStale.world.resident ∧
    sceneStale.world.epochs = [(⟨0, 0, 0, 0⟩, 2)] ∧
    (⟨⟨0, 0, 0, 0⟩, 1⟩ : Completion) ∈
      (render sceneStale RenderInput.zero).1.world.watcher.generator.completions := by
  refine ⟨?_, rfl, ?_⟩
  · intro h; cases h
  · exact List.mem_singleton.mpr rfl

/-- C6, amended: in the scenario with radii `[64,128,256]`, after the
viewpoint has moved to `(100,0,0)` a tick changes the residency of neither
leaf: `(96,0,0,0)`, at distance 4 < 64, is resident after the tick exactly
when it was before, and so is `(-96,0,0,0)`, at distance 196 < 256. -/
theorem update_scenario_keeps_leaves (ds : DebugScene) (input : RenderInput) :
    ((⟨96, 0, 0, 0⟩ : ChunkCoordinate) ∈
        (update (moveViewpoint ds (100, 0, 0)) input).1.world.resident ↔
      ⟨96, 0, 0, 0⟩ ∈ ds.world.resident) ∧
    ((⟨-96, 0, 0, 0⟩ : ChunkCoordinate) ∈
        (update (moveViewpoint ds (100, 0, 0)) input).1.world.resident ↔
      ⟨-96, 0, 0, 0⟩ ∈ ds.world.resident) ∧
    distSq (100, 0, 0) ⟨96, 0, 0, 0⟩ = 4 ^ 2 ∧ scenarioRadii.get? 0 = some 64 ∧
    distSq (100, 0, 0) ⟨-96, 0, 0, 0⟩ = 196 ^ 2 ∧ scenarioRadii.get? 2 = some 256 ∧
    (4 : Int) < 64 ∧ (196 : Int) < 256 :=
  ⟨Iff.rfl, Iff.rfl, by decide, rfl, by decide, rfl, by decide, by decide⟩

/-- C6, as stated, fails: with `(0,0,0,0)` and `(-96,0,0,0)` resident and the
viewpoint moved from the origin to `(100,0,0)`, after one tick the leaf
`(96,0,0,0)` is not resident and the leaf `(-96,0,0,0)` still is; its
distance 196 is not greater than 256. -/
theorem update_scenario_no_change :
    sceneOrigin.camera.position = (0, 0, 0) ∧
    (⟨96, 0, 0, 0⟩ : ChunkCoordinate) ∉
      (update (moveViewpoint sceneOrigin (100, 0, 0)) RenderInput.zero).1.world.resident ∧
    (⟨-96, 0, 0, 0⟩ : ChunkCoordinate) ∈
      (update (moveViewpoint sceneOrigin (100, 0, 0)) RenderInput.zero).1.world.resident ∧
    distSq (100, 0, 0) ⟨-96, 0, 0, 0⟩ = 196 ^ 2 ∧ ¬ ((196 : Int) > 256) := by
  refine ⟨rfl, ?_, ?_, by decide, by decide⟩
  · simp [update, moveViewpoint, sceneOrigin, WorldOctree.zero]
  · simp [update, moveViewpoint, sceneOrigin, WorldOctree.zero]

/-! ## Shutdown -/

/-- C3: in the effects of every call of `destroy`, `watcher.stop()` occurs
exactly once, `generator.stop()` occurs exactly once, and `watcher.stop()`
comes before `generator.stop()`. -/
theorem destroy_stops_watcher_then_generator (ds : DebugScene) :
    (destroy ds).2.count Effect.watcherStop = 1 ∧
    (destroy ds).2.count Effect.generatorStop = 1 ∧
    (destroy ds).2.indexOf Effect.watcherStop < (destroy ds).2.indexOf Effect.generatorStop ∧
    (destroy ds).2 = [Effect.call Fn.destroy, Effect.watcherStop, Effect.generatorStop] := by
  have h : (destroy ds).2 =
      [Effect.call Fn.destroy, Effect.watcherStop, Effect.generatorStop] := rfl
  rw [h]
  exact ⟨by decide, by decide, by decide, rfl⟩

/-- C4, amended: no run of `main` ever calls `DebugScene.destroy`: the trace
of `main` contains neither `watcher.stop()` nor `generator.stop()`, so no
teardown effect in it is preceded by them. -/
theorem main_never_stops_watcher_or_generator (env : Env) (fuel : Nat) :
    Effect.watcherStop ∉ (main env fuel).trace ∧
    Effect.generatorStop ∉ (main env fuel).trace ∧
    Effect.call Fn.destroy ∉ (main env fuel).trace :=
  ⟨main_trace_avoids env fuel _ rfl rfl, main_trace_avoids env fuel _ rfl rfl,
    main_trace_avoids env fuel _ rfl rfl⟩

/-- C4, as stated, fails: in the run where every initialisation call
succeeds, `main` returns with `GL_DeleteContext`, `window.Destroy` and
`sdl.Quit` in its trace and neither `watcher.stop()` nor `generator.stop()`
anywhere in it. -/
theorem main_teardown_without_shutdown :
    (main envOk 0).status = MainStatus.returned ∧
    Effect.glDeleteContext ∈ (main envOk 0).trace ∧
    Effect.windowDestroy ∈ (main envOk 0).trace ∧
    Effect.sdlQuit ∈ (main envOk 0).trace ∧
    Effect.watcherStop ∉ (main envOk 0).trace ∧
    Effect.generatorStop ∉ (main envOk 0).trace := by
  have h : (CoreInit envOk RenderInput.zero).outcome = Outcome.ret true := rfl
  rw [main_of_true envOk 0 h]
  exact ⟨rfl, by decide, by decide, by decide, by decide, by decide⟩

/-! ## The main loop -/

/-- C5: every iteration of the main loop of `CoreRun` completes, calls
`scene.render` exactly once, calls `scene.update` at most `maxFrameSkip = 1`
times, and makes every `scene.update` call before the `scene.render` call. -/
theorem loopBody_render_once_after_updates (env : Env) (s : RunState) :
    ∃ s1 tr, loopBody env s = some (s1, tr) ∧
      tr.count (Effect.call Fn.render) = 1 ∧
      ((tr.count (Effect.call Fn.update) : Nat) : Int) ≤ maxFrameSkip ∧
      maxFrameSkip = 1 ∧
      ∃ pre post, tr = pre ++ Effect.call Fn.render :: post ∧
        Effect.call Fn.update ∉ post ∧
        Effect.call Fn.render ∉ pre ∧ Effect.call Fn.render ∉ post := by
  obtain ⟨s1, post, h1, hpost, -, -, -⟩ := loopBody_spec env s
  refine ⟨s1, _, h1, ?_, ?_, rfl, [Effect.getTicks] ++ updateTrace env s,
    [Effect.getTicks] ++ post, by simp, ?_, ?_, ?_⟩ <;>
  · rcases hpost with rfl | rfl <;> (try unfold updateTrace) <;> (try split_ifs) <;> decide

/-- C9: `CoreRun` never returns where it is entered with `shouldClose`
false, and in fact in no run; its loop, entered once `NewDebugScene` has
returned a scene, ends only at a loop test that finds `shouldClose` true and
then returns false, and is still running after any number of loop tests when
`shouldClose` is false; an iteration of the loop, `update` and `render`
leave `shouldClose` as it is; `CoreInit` leaves `shouldClose` false unless
`sdl.Init` failed before the assignment. -/
theorem CoreRun_returns_only_on_shouldClose (env : Env) (fuel : Nat) (r : RenderInput)
    (scene : DebugScene) :
    (∀ b, (CoreRun env fuel r).outcome ≠ some (Outcome.ret b)) ∧
    (CoreRunFrom env (fuel + 1) r scene).result =
      (if r.shouldClose then some false else none) ∧
    (∀ b, (CoreRunFrom env fuel r scene).result = some b →
      b = false ∧ (CoreRunFrom env fuel r scene).state.render.shouldClose = true) ∧
    (∀ s, ∃ s1 tr, loopBody env s = some (s1, tr) ∧
      s1.render.shouldClose = s.render.shouldClose) ∧
    (∀ ds, (update ds r).1 = ds ∧ (render ds r).1 = ds) ∧
    (CoreInit env r).out.shouldClose = (r.shouldClose && env.sdlInitFails) := by
  refine ⟨?_, ?_, ?_, ?_, fun ds => ⟨rfl, rfl⟩, ?_⟩
  · intro b hb
    rw [CoreRun_outcome] at hb
    cases hb
  · cases h : r.shouldClose with
    | false => simpa using CoreRunFrom_running env (fuel + 1) r scene h
    | true =>
      simp only [CoreRunFrom, if_true]
      rw [runLoop_close env fuel _ (show (CoreRunEntry env r scene).render.shouldClose = true
        from h)]
  · intro b hb
    simp only [CoreRunFrom] at hb ⊢
    exact runLoop_result env fuel _ b hb
  · intro s
    obtain ⟨s1, post, h1, -, hc, -, -⟩ := loopBody_spec env s
    exact ⟨s1, _, h1, hc⟩
  · unfold CoreInit
    split_ifs with h1 <;> simp [h1]

/-- C10: `skipTicks` is 0; once `NewDebugScene` has returned a scene, after
any number of loop tests `nextTick` still equals the tick count `CoreRun`
read at entry, also after one more iteration; and that iteration calls
`scene.update` exactly when the clock read of its inner loop test is greater
than the tick count read at entry. -/
theorem CoreRun_nextTick_constant (env : Env) (fuel : Nat) (r : RenderInput)
    (scene : DebugScene) :
    skipTicks = 0 ∧
    (CoreRunFrom env fuel r scene).state.nextTick = readTicks env 0 ∧
    ∃ s1 tr, loopBody env (CoreRunFrom env fuel r scene).state = some (s1, tr) ∧
      s1.nextTick = readTicks env 0 ∧
      (Effect.call Fn.update ∈ tr ↔
        readTicks env ((CoreRunFrom env fuel r scene).state.clock + 1) > readTicks env 0) := by
  have hlt : readTicks env 0 < 2 ^ 32 := Nat.mod_lt _ (by decide)
  have hn : (CoreRunFrom env fuel r scene).state.nextTick = readTicks env 0 := by
    simp only [CoreRunFrom]
    exact runLoop_nextTick env fuel (CoreRunEntry env r scene) hlt
  refine ⟨skipTicks_eq, hn, ?_⟩
  obtain ⟨s1, post, h1, hpost, -, hnt, -⟩ :=
    loopBody_spec env (CoreRunFrom env fuel r scene).state
  refine ⟨s1, _, h1, ?_, ?_⟩
  · rw [hnt, hn]; split_ifs
    · exact Nat.mod_eq_of_lt hlt
    · rfl
  · unfold updateTrace
    rw [hn]
    rcases hpost with rfl | rfl <;> split_ifs with hc <;> simp [hc]

/-! ## `main` -/

/-- C8, amended: `main` calls `CoreRun` exactly when `CoreInit` returns
false, and does not return from that call, so `CoreCleanup` is called in no
run; when `CoreInit` returns true `main` returns without calling `CoreRun`
or `CoreCleanup`, and `main` returns in no other case. -/
theorem main_calls_CoreRun_iff_init_false (env : Env) (fuel : Nat) :
    (Effect.call Fn.CoreRun ∈ (main env fuel).trace ↔
      (CoreInit env RenderInput.zero).outcome = Outcome.ret false) ∧
    Effect.call Fn.CoreCleanup ∉ (main env fuel).trace ∧
    ((main env fuel).status = MainStatus.returned ↔
      (CoreInit env RenderInput.zero).outcome = Outcome.ret true) ∧
    ((CoreInit env RenderInput.zero).outcome = Outcome.ret true →
      (main env fuel).trace = (CoreInit env RenderInput.zero).trace) := by
  have hin := List.all_eq_true.mp (CoreInit_trace_init env RenderInput.zero)
  have hno : Effect.call Fn.CoreRun ∉ (CoreInit env RenderInput.zero).trace := by
    intro h; have := hin _ h; cases this
  refine ⟨?_, main_trace_avoids env fuel _ rfl rfl, ?_, ?_⟩
  · cases h : (CoreInit env RenderInput.zero).outcome with
    | panicked => rw [main_of_panicked env fuel h]; simpa using hno
    | ret b =>
      cases b with
      | true => rw [main_of_true env fuel h]; simpa using hno
      | false =>
        rw [main_of_false env fuel h]
        simpa using Or.inr (CoreRun_calls_CoreRun env fuel _)
  · cases h : (CoreInit env RenderInput.zero).outcome with
    | panicked => rw [main_of_panicked env fuel h]; simp
    | ret b =>
      cases b with
      | true => rw [main_of_true env fuel h]; simp
      | false => rw [main_of_false env fuel h]; simp
  · intro h
    rw [main_of_true env fuel h]

/-- C8, as stated, fails: when `sdl.Init` fails `CoreInit` returns false and
`main` calls `CoreRun`, yet however long the run lasts `CoreCleanup` is not
called. -/
theorem main_init_false_no_cleanup :
    (CoreInit envInitFails RenderInput.zero).outcome = Outcome.ret false ∧
    Effect.call Fn.CoreRun ∈ (main envInitFails 0).trace ∧
    ¬ ∃ fuel, Effect.call Fn.CoreCleanup ∈ (main envInitFails fuel).trace := by
  have h : (CoreInit envInitFails RenderInput.zero).outcome = Outcome.ret false := rfl
  refine ⟨h, ?_, ?_⟩
  · rw [main_of_false envInitFails 0 h]
    exact List.mem_append.mpr (Or.inr (CoreRun_calls_CoreRun _ _ _))
  · rintro ⟨fuel, hf⟩
    exact main_trace_avoids envInitFails fuel (Effect.call Fn.CoreCleanup) rfl rfl hf

/-! ## The generator queue -/

theorem lowestPriority_of_ne_nil (l : List PendingRequest) (h : l ≠ []) :
    ∃ d, lowestPriority l = some d := by
  cases l with
  | nil => exact absurd rfl h
  | cons r rs =>
    simp only [lowestPriority]
    split
    · exact ⟨_, rfl⟩
    · split_ifs
      · exact ⟨_, rfl⟩
      · exact ⟨_, rfl⟩

theorem lowestPriority_spec (l : List PendingRequest) (d : PendingRequest)
    (h : lowestPriority l = some d) : d ∈ l ∧ ∀ p ∈ l, d.priority ≤ p.priority := by
  induction l generalizing d with
  | nil => cases h
  | cons r rs ih =>
    cases hr : lowestPriority rs with
    | none =>
      have hnil : rs = [] := by
        cases rs with
        | nil => rfl
        | cons a as =>
          obtain ⟨m, hm⟩ := lowestPriority_of_ne_nil (a :: as) (List.cons_ne_nil _ _)
          rw [hm] at hr
          cases hr
      subst hnil
      simp only [lowestPriority] at h
      cases h
      simp
    | some m =>
      obtain ⟨hm, hmin⟩ := ih m hr
      simp only [lowestPriority, hr] at h
      split_ifs at h with hle
      · cases h
        refine ⟨List.mem_cons_self _ _, ?_⟩
        intro p hp
        rcases List.mem_cons.mp hp with rfl | hp
        · exact le_refl _
        · exact le_trans hle (hmin p hp)
      · cases h
        refine ⟨List.mem_cons_of_mem _ hm, ?_⟩
        intro p hp
        rcases List.mem_cons.mp hp with rfl | hp
        · exact le_of_lt (not_le.mp hle)
        · exact hmin p hp

/-- C7: on a running generator whose bounded pending queue is full, enqueue
returns (it is a function with no waiting state) having dropped one pending
request of lowest priority and appended the new one; the queue keeps its
depth and the in-flight requests are untouched. -/
theorem enqueue_full_drops_lowest_pending (g : Generator) (r : PendingRequest)
    (hrun : g.stopped = false) (hpos : 0 < g.maxDepth)
    (hfull : g.pending.length = g.maxDepth) :
    ∃ d, (g.enqueue r).2 = some d ∧ d ∈ g.pending ∧
      (∀ p ∈ g.pending, d.priority ≤ p.priority) ∧
      (g.enqueue r).1.pending = g.pending.erase d ++ [r] ∧
      (g.enqueue r).1.pending.length = g.maxDepth ∧
      (g.enqueue r).1.inflight = g.inflight := by
  have hne : g.pending ≠ [] := by
    intro h; rw [h] at hfull; simp at hfull; omega
  obtain ⟨d, hd⟩ := lowestPriority_of_ne_nil g.pending hne
  obtain ⟨hmem, hmin⟩ := lowestPriority_spec g.pending d hd
  have hnot : ¬ g.pending.length < g.maxDepth := by omega
  have he : g.enqueue r = ({ g with pending := g.pending.erase d ++ [r] }, some d) := by
    simp only [Generator.enqueue, hrun, hnot, hd, if_false, Bool.false_eq_true]
  refine ⟨d, by rw [he], hmem, hmin, by rw [he], ?_, by rw [he]⟩
  rw [he]
  simp only [List.length_append, List.length_singleton, List.length_erase_of_mem hmem]
  omega

/-- C7 at a concrete input: the full queue of `generatorFull` drops its
request of priority 1 for a new request of priority 3. -/
theorem enqueue_full_drops_lowest_pending_witness :
    (generatorFull.enqueue ⟨⟨4, 0, 0, 0⟩, 3, 0⟩).2 = some ⟨⟨2, 0, 0, 0⟩, 1, 0⟩ ∧
    ∃ d, (generatorFull.enqueue ⟨⟨4, 0, 0, 0⟩, 3, 0⟩).2 = some d ∧ d ∈ generatorFull.pending ∧
      (∀ p ∈ generatorFull.pending, d.priority ≤ p.priority) ∧
      (generatorFull.enqueue ⟨⟨4, 0, 0, 0⟩, 3, 0⟩).1.pending =
        generatorFull.pending.erase d ++ [⟨⟨4, 0, 0, 0⟩, 3, 0⟩] ∧
      (generatorFull.enqueue ⟨⟨4, 0, 0, 0⟩, 3, 0⟩).1.pending.length = generatorFull.maxDepth ∧
      (generatorFull.enqueue ⟨⟨4, 0, 0, 0⟩, 3, 0⟩).1.inflight = generatorFull.inflight :=
  ⟨by decide,
    enqueue_full_drops_lowest_pending generatorFull ⟨⟨4, 0, 0, 0⟩, 3, 0⟩ rfl (by decide) rfl⟩

end GoBinaryMeshFitting
